import Mathlib

set_option autoImplicit false

/-!
A verification development for a single-file Python blog scraper/exporter.

The program crawls a syndication feed, downloads each post and its images,
and exports posts as TXT, Markdown, PDF or EPUB, recording per-post metadata.

This file gives a shallow embedding of the program.  External collaborators
(the HTTP session, `feedparser`, `BeautifulSoup` document parsing, `dateutil`,
`pdfkit`, the filesystem write success) are abstracted into a `World` record
of oracles; everything the program itself computes (URL manipulation, CMS
detection, feed resolution, container extraction, image filtering, export
dispatch, the pagination loop, counter assignment, metadata accumulation) is
translated function-by-function from the source.

Modelling conventions:
* Python exceptions are explicit where a claim turns on them: the post
  fetch's transport exceptions, date-parse errors, the PDF renderer's
  non-`OSError` failures and the `AttributeError` on exporting the empty
  extraction result with an images folder are modelled as crash outcomes,
  threaded through a `crashed` flag exactly as `future.result()` re-raises
  them.  The source also leaves some `OSError`s uncaught — `os.makedirs`,
  the raw image and temporary-HTML writes, the final JSON `open` — which
  would likewise abort the task or run; these operations are modelled as
  succeeding, and no theorem asserts that a run cannot fail on them.
* Filesystem mutations are an effect trace (`Eff`); console printing and the
  append-only `error_log.txt` logging are not modelled as effects of the
  pipeline (the source only ever appends free-form text there).
* The thread pool executes a page's already-submitted tasks in an order given
  by a permutation parameter; sequence counters are assigned at submission
  time, exactly as in the source.
-/

/-! ## Basic string helpers (models of Python primitives) -/

/-- Does `hay` start with `needle`?  (List-level prefix test.) -/
def list_has_pre : List Char → List Char → Bool
  | [], _ => true
  | _ :: _, [] => false
  | a :: as, b :: bs => a = b && list_has_pre as bs

/-- Auxiliary scan for substring containment. -/
def str_contains_aux (needle : List Char) : List Char → Bool
  | [] => needle.isEmpty
  | h :: t => list_has_pre needle (h :: t) || str_contains_aux needle t

/-- Model of Python's `needle in hay` substring test. -/
def str_contains (hay needle : String) : Bool :=
  str_contains_aux needle.toList hay.toList

/-- Character-level lower-casing (kernel-computable model of
`str.lower()`). -/
def str_lower (s : String) : String :=
  String.mk (s.toList.map Char.toLower)

/-- Does `s` start with `pre`?  (Model of `str.startswith`.) -/
def str_starts (s pre : String) : Bool :=
  list_has_pre pre.toList s.toList

/-- Left-to-right, non-overlapping replacement of `old` by `new`, fuelled by
the input length (each step consumes at least one character, so the fuel
never runs out on the initial call).  Model of Python's `str.replace` for a
nonempty `old`. -/
def replace_fuel (old new : List Char) : Nat → List Char → List Char
  | 0, l => l
  | _, [] => []
  | fuel + 1, c :: cs =>
    if list_has_pre old (c :: cs) ∧ old ≠ [] then
      new ++ replace_fuel old new fuel (cs.drop (old.length - 1))
    else c :: replace_fuel old new fuel cs

/-- Model of Python's `s.replace(old, new)` (all occurrences). -/
def py_replace (s old new : String) : String :=
  String.mk (replace_fuel old.toList new.toList s.toList.length s.toList)

/-- Split a character list on spaces (model of the whitespace splitting of a
multi-valued attribute). -/
def split_spaces (cur : List Char) : List Char → List String
  | [] => [String.mk cur.reverse]
  | c :: cs =>
    if c = ' ' then String.mk cur.reverse :: split_spaces [] cs
    else split_spaces (c :: cur) cs

/-- Model of Python's `url.rstrip('/')`: drop all trailing slashes. -/
def rstrip_slash (s : String) : String :=
  String.mk ((s.toList.reverse.dropWhile (fun c => c = '/')).reverse)

/-- Split a character list at the first occurrence of `c`; the second
component is `none` when `c` does not occur. -/
def split_on_first (c : Char) : List Char → List Char × Option (List Char)
  | [] => ([], none)
  | x :: xs =>
    if x = c then ([], some xs)
    else
      let r := split_on_first c xs
      (x :: r.1, r.2)

/-! ## URL parsing (model of `urllib.parse` and `os.path` helpers) -/

/-- Characters allowed in a URL scheme after the leading letter. -/
def is_scheme_char (c : Char) : Bool :=
  c.isAlphanum || c = '+' || c = '-' || c = '.'

/-- Result of `urllib.parse.urlsplit`. -/
structure UrlParts where
  scheme : String
  netloc : String
  path : String
  query : String
  fragment : String
deriving DecidableEq

/-- Model of `urllib.parse.urlsplit`: split off the fragment at the first
`#`, the query at the first `?`, recognise a scheme `alpha(alnum|+|-|.)*:`
(lower-cased), and a `//netloc` authority ending at the next `/`. -/
def urlsplit (u : String) : UrlParts :=
  let cs := u.toList
  let pf := split_on_first '#' cs
  let pq := split_on_first '?' pf.1
  let sr :=
    match split_on_first ':' pq.1 with
    | (before, some after) =>
      if before ≠ [] ∧ (before.head?.map Char.isAlpha).getD false ∧ before.all is_scheme_char then
        (before.map Char.toLower, after)
      else ([], pq.1)
    | (_, none) => ([], pq.1)
  let np :=
    if sr.2.take 2 = ['/', '/'] then
      let after := sr.2.drop 2
      match split_on_first '/' after with
      | (nl, some r) => (nl, '/' :: r)
      | (nl, none) => (nl, [])
    else ([], sr.2)
  { scheme := String.mk sr.1, netloc := String.mk np.1, path := String.mk np.2,
    query := String.mk (pq.2.getD []), fragment := String.mk (pf.2.getD []) }

/-- Model of `os.path.basename`: the component after the last `/`. -/
def basename (p : String) : String :=
  String.mk ((p.toList.reverse.takeWhile (fun c => c ≠ '/')).reverse)

/-- The extension part of `os.path.splitext`:  from the last `.` of the final
path component, provided some earlier character of that component is not a
`.` (leading dots never start an extension). -/
def splitext_ext (p : String) : String :=
  let base := (p.toList.reverse.takeWhile (fun c => c ≠ '/')).reverse
  let after_dot := base.reverse.takeWhile (fun c => c ≠ '.')
  if after_dot.length = base.length then ""
  else
    let stem := base.take (base.length - after_dot.length - 1)
    if stem.any (fun c => c ≠ '.') then String.mk ('.' :: after_dot.reverse) else ""

/-- The directory part of a path, kept up to and including the last `/`
(empty when the path has no `/`). -/
def path_dir (p : String) : String :=
  String.mk ((p.toList.reverse.dropWhile (fun c => c ≠ '/')).reverse)

/-- Model of `urllib.parse.urljoin` for the shapes the program produces: a
relative reference with its own scheme is taken as-is; scheme-relative and
root-relative references are resolved against the base's scheme/netloc;
other references replace the final segment of the base path.  (Dot-segment
normalisation and the same-scheme-relative corner of RFC 3986 are omitted;
the program only joins against absolute `http(s)` bases.) -/
def urljoin (base rel : String) : String :=
  if rel = "" then base
  else if (urlsplit rel).scheme ≠ "" then rel
  else
    let b := urlsplit base
    if str_starts rel "//" then b.scheme ++ ":" ++ rel
    else if str_starts rel "/" then b.scheme ++ "://" ++ b.netloc ++ rel
    else
      let d := path_dir b.path
      b.scheme ++ "://" ++ b.netloc ++ (if d = "" then "/" else d) ++ rel

/-! ## `sanitize_filename` / `sanitize_url` / `get_website_name` -/

/-- Source `sanitize_filename`: drop every character matched by the class
`[\\/*?:"<>|]`. -/
def sanitize_filename (filename : String) : String :=
  String.mk (filename.toList.filter
    (fun c => ¬ c ∈ ['\\', '/', '*', '?', ':', '"', '<', '>', '|']))

/-- Source `sanitize_url`: sanitize the basename of the URL's path. -/
def sanitize_url (url : String) : String :=
  sanitize_filename (basename (urlsplit url).path)

/-- Source `get_website_name`: the netloc with every occurrence of `www.`
removed (Python `str.replace` replaces all occurrences). -/
def get_website_name (url : String) : String :=
  py_replace ((urlsplit url).netloc) "www." ""

/-! ## Content trees (model of BeautifulSoup documents)

A parsed document is a tree of element nodes (tag, attribute list, children)
and text leaves.  A whole parsed document is represented rooted at the soup
pseudo-root, so that `soup.find(...)` — which searches every element of the
document — and `tag.find(...)` — which searches strict descendants only —
are both modelled by a search over the strict descendants of the given node.
-/

/-- A parsed markup tree. -/
inductive Html where
  | text : String → Html
  | node : String → List (String × String) → List Html → Html

/-- Model of `tag.get(key)`: the first attribute with the given name. -/
def attr_get (h : Html) (key : String) : Option String :=
  match h with
  | .text _ => none
  | .node _ attrs _ => (attrs.find? (fun kv => kv.1 == key)).map (fun kv => kv.2)

/-- The whitespace-separated class list of an element (BeautifulSoup's
multi-valued `class` attribute). -/
def class_list (h : Html) : List String :=
  match attr_get h "class" with
  | none => []
  | some s => split_spaces [] s.toList

/-- Does the element carry the given class token (`class_=c` matching)? -/
def has_class (h : Html) (c : String) : Bool :=
  (class_list h).contains c

mutual
/-- First `div` with class `c` in the subtree rooted at `h`, the root
included, in document (pre)order. -/
def find_div_in (c : String) : Html → Option Html
  | .text _ => none
  | .node tag attrs children =>
    if tag == "div" && has_class (.node tag attrs children) c then
      some (.node tag attrs children)
    else find_div_list c children
/-- First `div` with class `c` among a forest, in document order. -/
def find_div_list (c : String) : List Html → Option Html
  | [] => none
  | x :: xs =>
    match find_div_in c x with
    | some r => some r
    | none => find_div_list c xs
end

/-- Model of `find('div', class_=c)` on a soup or tag: search the strict
descendants of `h` (the soup pseudo-root is never itself an element). -/
def find_div (c : String) (h : Html) : Option Html :=
  match h with
  | .text _ => none
  | .node _ _ children => find_div_list c children

mutual
/-- All `img` elements of the subtree rooted at `h`, root included, in
document order. -/
def imgs_in : Html → List Html
  | .text _ => []
  | .node tag attrs children =>
    (if tag == "img" then [Html.node tag attrs children] else []) ++ imgs_list children
/-- All `img` elements of a forest, in document order. -/
def imgs_list : List Html → List Html
  | [] => []
  | x :: xs => imgs_in x ++ imgs_list xs
end

/-- Model of `find_all('img')`: every `img` among the strict descendants. -/
def find_all_img (h : Html) : List Html :=
  match h with
  | .text _ => []
  | .node _ _ children => imgs_list children

mutual
/-- Model of Python `str(tag)`: serialise the tree back to markup. -/
def html_str : Html → String
  | .text s => s
  | .node tag attrs children =>
    "<" ++ tag ++ attrs_str attrs ++ ">" ++ html_str_list children ++ "</" ++ tag ++ ">"
/-- Serialise an attribute list. -/
def attrs_str : List (String × String) → String
  | [] => ""
  | kv :: rest => " " ++ kv.1 ++ "=\x22" ++ kv.2 ++ "\x22" ++ attrs_str rest
/-- Serialise a forest. -/
def html_str_list : List Html → String
  | [] => ""
  | h :: t => html_str h ++ html_str_list t
end

/-! ## Dates (model of `datetime` / `dateutil`)

`datetime` objects render via `isoformat()` as
`YYYY-MM-DDTHH:MM:SS[.ffffff][±HH:MM]`: the six-digit fraction appears
exactly when the microsecond field is nonzero (`datetime.now()` usually
carries one), and the offset suffix appears exactly when the datetime is
timezone-aware (`dateutil` parses RSS dates with their offsets).  Years
are at most four digits and offsets below a day in `datetime`, so the
fixed-width digit extraction below coincides with Python's padding on
every representable date.  (Offsets with a seconds component, which
`dateutil` produces for no RSS date format, are omitted.) -/

/-- A calendar timestamp as `dateutil`/`datetime` deliver it: a possibly
timezone-aware datetime with microseconds; `tz_minutes` is the UTC offset
in minutes when the datetime is aware. -/
structure Date where
  year : Nat
  month : Nat
  day : Nat
  hour : Nat
  minute : Nat
  second : Nat
  microsecond : Nat
  tz_minutes : Option Int
deriving DecidableEq

/-- Two-digit zero-padded rendering of a (two-digit) number. -/
def two_digit_chars (n : Nat) : List Char :=
  [Nat.digitChar (n / 10 % 10), Nat.digitChar (n % 10)]

/-- Four-digit zero-padded rendering of a (four-digit) number. -/
def four_digit_chars (n : Nat) : List Char :=
  [Nat.digitChar (n / 1000 % 10), Nat.digitChar (n / 100 % 10),
   Nat.digitChar (n / 10 % 10), Nat.digitChar (n % 10)]

/-- Six-digit zero-padded rendering of a (six-digit) number. -/
def six_digit_chars (n : Nat) : List Char :=
  [Nat.digitChar (n / 100000 % 10), Nat.digitChar (n / 10000 % 10),
   Nat.digitChar (n / 1000 % 10), Nat.digitChar (n / 100 % 10),
   Nat.digitChar (n / 10 % 10), Nat.digitChar (n % 10)]

/-- The `±HH:MM` suffix of an aware datetime's `isoformat()`. -/
def tz_offset_chars (off : Int) : List Char :=
  (if off < 0 then '-' else '+') ::
    (two_digit_chars (off.natAbs / 60) ++ [':'] ++ two_digit_chars (off.natAbs % 60))

/-- Model of `datetime.isoformat()`: the basic timestamp, a `.ffffff`
fraction exactly when the microsecond field is nonzero, and a `±HH:MM`
offset exactly when the datetime is timezone-aware. -/
def Date.isoformat (d : Date) : String :=
  String.mk (four_digit_chars d.year ++ ['-'] ++ two_digit_chars d.month ++ ['-'] ++
    two_digit_chars d.day ++ ['T'] ++ two_digit_chars d.hour ++ [':'] ++
    two_digit_chars d.minute ++ [':'] ++ two_digit_chars d.second ++
    (if d.microsecond ≠ 0 then '.' :: six_digit_chars d.microsecond else []) ++
    (match d.tz_minutes with
     | none => []
     | some off => tz_offset_chars off))

/-- Recogniser for an optional trailing `±HH:MM` UTC offset. -/
def iso_offset_chars : List Char → Bool
  | [] => true
  | [sgn, a, b, ':', c, d] =>
    (sgn = '+' || sgn = '-') && [a, b, c, d].all Char.isDigit
  | _ => false

/-- Recogniser for an optional `.ffffff` fraction followed by an optional
offset. -/
def iso_tail_chars : List Char → Bool
  | '.' :: rest =>
    match rest with
    | a :: b :: c :: d :: e :: f :: rest2 =>
      [a, b, c, d, e, f].all Char.isDigit && iso_offset_chars rest2
    | _ => false
  | rest => iso_offset_chars rest

/-- Recogniser for the ISO-8601 shapes `datetime.isoformat()` produces:
`YYYY-MM-DDTHH:MM:SS`, optionally followed by a six-digit second fraction
and optionally by a `±HH:MM` offset. -/
def is_iso8601 (s : String) : Bool :=
  match s.toList with
  | y1 :: y2 :: y3 :: y4 :: '-' :: m1 :: m2 :: '-' :: d1 :: d2 :: 'T' ::
      h1 :: h2 :: ':' :: n1 :: n2 :: ':' :: s1 :: s2 :: rest =>
    [y1, y2, y3, y4, m1, m2, d1, d2, h1, h2, n1, n2, s1, s2].all Char.isDigit &&
      iso_tail_chars rest
  | _ => false

/-! ## Feed entries and records -/

/-- One syndicated feed item as `feedparser` yields it (`published` is
absent from some feeds). -/
structure Entry where
  title : String
  link : String
  published : Option String
deriving DecidableEq

/-- One metadata record exactly as `process_post` appends it. -/
structure PostRecord where
  title : String
  url : String
  published_date : String
  has_post_body : Bool
deriving DecidableEq

/-! ## The external world -/

/-- Result of `fetch_post_content`'s HTTP GET plus BeautifulSoup parse:
`exn` models a raised `requests.RequestException` (not caught there),
`badStatus` a non-200 response (the function logs and returns `None`),
`ok` a 200 response parsed — per its content type — into a tree. -/
inductive FetchResult where
  | ok : Html → FetchResult
  | badStatus : Nat → FetchResult
  | exn : FetchResult

/-- Outcome of the external `pdfkit.from_file` renderer call: success, a
raised `OSError` (the class the source catches), or a raised exception of
any other class. -/
inductive RenderOutcome where
  | ok : RenderOutcome
  | osError : RenderOutcome
  | otherExn : RenderOutcome
deriving DecidableEq

/-- Oracles for every external collaborator the program consults. -/
structure World where
  /-- `session.head(url).status_code`; `none` models a raised
  `requests.RequestException`. -/
  headStatus : String → Option Nat
  /-- The `Content-Type` header of the `session.head` response. -/
  headContentType : String → String
  /-- `session.get(url).text` for CMS detection; `none` models a raised
  `requests.RequestException`. -/
  getHtml : String → Option String
  /-- `feedparser.parse(url)`: `none` models a bozo (malformed) document,
  otherwise the entry list of the page. -/
  parseFeed : String → Option (List Entry)
  /-- Post fetch and parse, see `FetchResult`. -/
  fetchPost : String → FetchResult
  /-- `session.get(img_url).content`; `none` models a raised
  `requests.RequestException`. -/
  imgBytes : String → Option String
  /-- `dateutil.parser.parse`; `none` models a raised parse error. -/
  parseDate : String → Option Date
  /-- `datetime.now()`. -/
  now : Date
  /-- The external HTML-to-PDF renderer invocation on (source, destination). -/
  render : String → String → RenderOutcome
  /-- Whether opening the given path for writing succeeds (`OSError`
  otherwise). -/
  writeOk : String → Bool

/-! ## Effects and metadata persistence -/

/-- A filesystem mutation performed by the pipeline. -/
inductive Eff where
  | mkdirP : String → Eff
  | writeFile : String → String → Eff
  | render : String → String → Eff
  | removeFile : String → Eff
deriving DecidableEq

/-- One `save_metadata` invocation with its payload. -/
inductive SaveEvent where
  | json : List PostRecord → SaveEvent
  | csv : List PostRecord → SaveEvent
deriving DecidableEq

/-- Source `save_metadata`: JSON when `as_json` is set, CSV otherwise.  The
CSV branch catches `OSError` (logged); the JSON branch's `open` has no
handler in the source — its `OSError` would abort the run — and is
modelled as succeeding: no theorem below asserts that it cannot fail. -/
def save_metadata (metadata : List PostRecord) (as_json : Bool) : SaveEvent :=
  if as_json then .json metadata else .csv metadata

/-! ## Site classifier and feed resolver -/

/-- Source `is_blogspot_site`: probe the well-known Blogspot feed URL with a
HEAD request; yield that URL when the response is 200 with an `xml`
content type; a network exception or any other response yields `None`. -/
def is_blogspot_site (w : World) (url : String) : Option String :=
  let blogspot_feed_url := rstrip_slash url ++ "/feeds/posts/default?alt=rss"
  match w.headStatus blogspot_feed_url with
  | none => none
  | some code =>
    if code = 200 ∧ str_contains (str_lower (w.headContentType blogspot_feed_url)) "xml" then
      some blogspot_feed_url
    else none

/-- Source `detect_cms`: fetch the page (status ignored), lower-case its
text, and match platform markers in fixed order; a network exception, like
no match, yields `"unknown"`.  Note the `"blogspot" in url` test inspects
the (un-lowered) URL, not the page. -/
def detect_cms (w : World) (url : String) : String :=
  match w.getHtml url with
  | none => "unknown"
  | some text =>
    let html := str_lower text
    if str_contains html "blogger.com" || str_contains url "blogspot" then "blogspot"
    else if str_contains html "wp-content" || str_contains html "wordpress" then "wordpress"
    else if str_contains html "joomla" then "joomla"
    else if str_contains html "drupal" then "drupal"
    else "unknown"

/-- The candidate feed suffix list of `find_rss_feed`: per-CMS lists for
WordPress, Joomla and Drupal, otherwise the generic four-pattern list. -/
def potential_feeds (cms_type : String) : List String :=
  if cms_type = "wordpress" then ["/feed/", "/comments/feed/"]
  else if cms_type = "joomla" then ["/index.php?option=com_rss&feed=rss"]
  else if cms_type = "drupal" then ["/rss.xml"]
  else ["/feed/", "/rss.xml", "/atom.xml", "/feeds/"]

/-- The probing loop of `find_rss_feed`: first candidate whose HEAD request
returns 200; exceptions and other statuses fall through to the next. -/
def find_feed_from (w : World) (url : String) : List String → Option String
  | [] => none
  | f :: fs =>
    let feed_url := rstrip_slash url ++ f
    match w.headStatus feed_url with
    | some 200 => some feed_url
    | _ => find_feed_from w url fs

/-- Source `find_rss_feed`. -/
def find_rss_feed (w : World) (url cms_type : String) : Option String :=
  find_feed_from w url (potential_feeds cms_type)

/-- Source `determine_rss_feed_url`: return the Blogspot probe's URL when it
yielded one; otherwise detect the CMS and, unless it detected as
`"blogspot"`, probe the candidate suffixes; fall back to the original URL. -/
def determine_rss_feed_url (w : World) (rss_url : String) : String :=
  match is_blogspot_site w rss_url with
  | some blogspot_feed_url => blogspot_feed_url
  | none =>
    let cms_type := detect_cms w rss_url
    if cms_type ≠ "blogspot" then
      match find_rss_feed w rss_url cms_type with
      | some non_blogspot_feed_url => non_blogspot_feed_url
      | none => rss_url
    else rss_url

/-! ## Feed paginator and content extractor -/

/-- Source `fetch_rss_feed`: append offset pagination parameters when a
nonzero start index is supplied, then parse; a bozo document yields `None`. -/
def fetch_rss_feed (w : World) (url : String) (start_index max_results : Nat) :
    Option (List Entry) :=
  let url :=
    if start_index ≠ 0 then
      url ++ "&start-index=" ++ toString start_index ++ "&max-results=" ++ toString max_results
    else url
  w.parseFeed url

/-- Source `extract_content_by_div`: the first `div` of the given class;
`none` models the `""` the source returns when no such div exists. -/
def extract_content_by_div (post_content : Html) (div_class : String) : Option Html :=
  find_div div_class post_content

/-- The three-marker container chain
`find('div','post-body') or find('div','entry-content') or find('div','post-entry')`
as written (twice) in the source. -/
def locate_chain (doc : Html) : Option Html :=
  match find_div "post-body" doc with
  | some d => some d
  | none =>
    match find_div "entry-content" doc with
    | some d => some d
    | none => find_div "post-entry" doc

/-- The `has_post_body` flag of `process_post`: on the Blogspot path, whether
the three-marker chain found a container; on the fallback path, `true`. -/
def has_post_body (is_blogspot : Bool) (doc : Html) : Bool :=
  if is_blogspot then (locate_chain doc).isSome else true

/-- What `process_post` hands the exporter: a tree, or the empty string
(`str("") = ""`) when `extract_content_by_div` found nothing. -/
inductive Exported where
  | tree : Html → Exported
  | emptyStr : Exported

/-- The `div_content if has_post_body else post_content` argument of every
export call in `process_post`: when the flag is set, the result of the
fresh `post-body`-only lookup (possibly the empty string); when it is not,
the whole document. -/
def exported_content (is_blogspot : Bool) (doc : Html) : Exported :=
  if has_post_body is_blogspot doc then
    match extract_content_by_div doc "post-body" with
    | some d => .tree d
    | none => .emptyStr
  else .tree doc

/-- Model of Python `str` applied to an export argument. -/
def py_str : Exported → String
  | .tree h => html_str h
  | .emptyStr => ""

/-! ## Image downloader -/

/-- The raster-extension allow-list of `download_images`. -/
def allowed_exts : List String := [".jpg", ".jpeg", ".png", ".gif"]

/-- One iteration of `download_images`' loop: skip a missing or empty `src`
(`if img_url:`), resolve it against the feed URL, fetch it (a request
exception is logged and skipped), drop it when `os.path.splitext` of the
full resolved URL — query string included — is outside the allow-list, and
otherwise write the bytes under the sanitized basename of the URL path.
The write itself is modelled as succeeding: the surrounding `except`
clause catches only `requests.RequestException`, so an `OSError` from the
`open` would escape and crash the task — no theorem below asserts that it
cannot. -/
def download_image_one (w : World) (post_folder rss_url : String) (img : Html) : List Eff :=
  match attr_get img "src" with
  | none => []
  | some s =>
    if s = "" then []
    else
      let img_url := urljoin rss_url s
      match w.imgBytes img_url with
      | none => []
      | some img_data =>
        let ext := splitext_ext img_url
        if allowed_exts.contains (str_lower ext) then
          [Eff.writeFile (post_folder ++ "/" ++ sanitize_url img_url) img_data]
        else []

/-- Source `download_images`, image collection: when `inside_post_body` is
set, re-run the three-marker chain over the supplied tree and collect `img`
elements from the located container (none when the chain finds nothing);
otherwise collect `img` elements from the whole tree. -/
def images_in_scope (post_content : Html) (inside_post_body : Bool) : List Html :=
  if inside_post_body then
    match locate_chain post_content with
    | some post_body => find_all_img post_body
    | none => []
  else find_all_img post_content

/-- Source `download_images`, body: download every image in scope. -/
def download_images (w : World) (post_content : Html) (post_folder rss_url : String)
    (inside_post_body : Bool) : List Eff :=
  (images_in_scope post_content inside_post_body).flatMap
    (download_image_one w post_folder rss_url)

/-! ## Exporters -/

/-- Source `save_as_markdown`: write `str(content)` to the path; an
`OSError` is caught and logged (no write happens). -/
def save_as_markdown (w : World) (post_content : Exported) (output_path : String) : List Eff :=
  if w.writeOk output_path then [Eff.writeFile output_path (py_str post_content)] else []

/-- Source `save_as_txt`: write `str(content)` to the path; an `OSError` is
caught and logged (no write happens). -/
def save_as_txt (w : World) (post_content : Exported) (output_path : String) : List Eff :=
  if w.writeOk output_path then [Eff.writeFile output_path (py_str post_content)] else []

mutual
/-- The `<img src=...>` rewriting both PDF and EPUB exporters perform when an
images folder is present: point each `src` at the locally downloaded copy. -/
def rewrite_img_srcs (images_folder : String) : Html → Html
  | .text s => .text s
  | .node tag attrs children =>
    let attrs :=
      if tag == "img" then
        attrs.map (fun kv =>
          if kv.1 == "src" ∧ kv.2 ≠ "" then
            (kv.1, images_folder ++ "/" ++ sanitize_url kv.2)
          else kv)
      else attrs
    .node tag attrs (rewrite_img_srcs_list images_folder children)
/-- Apply `rewrite_img_srcs` to every tree of a forest. -/
def rewrite_img_srcs_list (images_folder : String) : List Html → List Html
  | [] => []
  | h :: t => rewrite_img_srcs images_folder h :: rewrite_img_srcs_list images_folder t
end

/-- The print-oriented CSS block embedded in the PDF template (abbreviated;
its exact text is immaterial to every property below). -/
def css_style : String := "body { font-family: Arial, sans-serif; }"

/-- The Jinja HTML template of `convert_to_pdf`, rendered (structure kept,
whitespace elided). -/
def html_template (title content : String) : String :=
  "<!DOCTYPE html><html lang=\x22en\x22><head><meta charset=\x22UTF-8\x22><title>" ++ title ++
    "</title><style>" ++ css_style ++ "</style></head><body><h1>" ++ title ++
    "</h1><div>" ++ content ++ "</div></body></html>"

/-- Source `convert_to_pdf`: with an images folder present the source first
calls `post_content.find_all('img')`, which raises `AttributeError` when
the export argument is the extractor's `""` (modelled as an immediate
crash with no effects); otherwise it renders the template, writes it to a
temporary `.html` path derived by `output_path.replace('.pdf', '.html')`,
invokes the renderer catching only `OSError`, and removes the temporary
file — a renderer exception of any other class propagates before the
removal.  Returns the effect trace and whether an exception propagated. -/
def convert_to_pdf (w : World) (post_content : Exported) (post_title output_path : String)
    (images_folder : Option String) : List Eff × Bool :=
  match images_folder, post_content with
  | some _, .emptyStr => ([], true)
  | _, _ =>
    let content :=
      match images_folder, post_content with
      | some f, .tree h => Exported.tree (rewrite_img_srcs f h)
      | _, pc => pc
    let html_content := html_template post_title (py_str content)
    let temp_html_path := py_replace output_path ".pdf" ".html"
    let effs := [Eff.writeFile temp_html_path html_content]
    match w.render temp_html_path output_path with
    | .ok => (effs ++ [Eff.render temp_html_path output_path, Eff.removeFile temp_html_path], false)
    | .osError => (effs ++ [Eff.render temp_html_path output_path, Eff.removeFile temp_html_path], false)
    | .otherExn => (effs ++ [Eff.render temp_html_path output_path], true)

/-- Opaque model of the `ebooklib` package serialisation. -/
def epub_render (title content : String) : String :=
  "epub:" ++ title ++ ":" ++ content

/-- Source `save_as_epub`: with an images folder present the source calls
`post_content.find_all('img')`, which raises `AttributeError` on the
extractor's `""` (modelled as a crash with no effects); otherwise it
builds a one-chapter book (rewriting image references to local copies when
an images folder is present) and writes it.  Failures of the external
e-book library and of the local image reads are not modelled (treated as
succeeding); no claim below depends on them. -/
def save_as_epub (_w : World) (post_content : Exported) (post_title output_path : String)
    (images_folder : Option String) : List Eff × Bool :=
  match images_folder, post_content with
  | some _, .emptyStr => ([], true)
  | some f, .tree h =>
    ([Eff.writeFile output_path (epub_render post_title (py_str (.tree (rewrite_img_srcs f h))))],
     false)
  | none, pc => ([Eff.writeFile output_path (epub_render post_title (py_str pc))], false)

/-- The output mode selected by `--mode`. -/
inductive Mode where
  | PDF | TXT | MD | EPUB
deriving DecidableEq

/-- The mode dispatch of `process_post`: build the output path
`<post_folder>/<title>.<ext>` and call the matching exporter; only the PDF
and EPUB exporters can let an exception propagate. -/
def export_step (w : World) (mode : Mode) (post_folder post_title : String)
    (content : Exported) (images_folder : Option String) : List Eff × Bool :=
  match mode with
  | .PDF => convert_to_pdf w content post_title (post_folder ++ "/" ++ post_title ++ ".pdf") images_folder
  | .TXT => (save_as_txt w content (post_folder ++ "/" ++ post_title ++ ".txt"), false)
  | .MD => (save_as_markdown w content (post_folder ++ "/" ++ post_title ++ ".md"), false)
  | .EPUB => save_as_epub w content post_title (post_folder ++ "/" ++ post_title ++ ".epub") images_folder

/-! ## Per-post processing -/

/-- The post folder path `<output_dir>/<site>/<counter> - <title>` exactly as
`process_post` assembles it (POSIX `os.path.join`). -/
def post_folder_path (output_dir post_url : String) (post_counter : Nat) (title : String) :
    String :=
  output_dir ++ "/" ++ get_website_name post_url ++ "/" ++ toString post_counter ++ " - " ++
    sanitize_filename title

/-- The result of one `process_post` task: the metadata record it appended
(if any), its filesystem effect trace, and whether an exception escaped it
(to be re-raised by `future.result()`). -/
structure PostOutcome where
  record : Option PostRecord
  effects : List Eff
  crashed : Bool
deriving DecidableEq

/-- Source `process_post`, in source order: fetch the post (an uncaught
request exception crashes the task; a non-200 status returns with nothing
done); parse the published date (an uncaught parse error crashes the
task); probe `is_blogspot_site(post_url)`; create the site and post
folders; optionally create the images folder and download images —
passing the located `post_body_div` itself (never the whole document) on
the Blogspot-with-container branch, as the source does at line 500, so
the downloader's own marker re-lookup scans only that container's strict
descendants; compute `div_content` via the `post-body`-only extraction;
dispatch the exporter on the mode; append the metadata record — skipped
when the exporter raised.  `post_body_div` is `some` whenever the
Blogspot-with-container branch is taken, so the `getD` default is never
consulted.  Directory creations and the exporter-internal raw writes are
modelled as succeeding: the source leaves their `OSError`s uncaught (they
would crash the task), and no theorem below asserts their absence. -/
def process_post (w : World) (entry : Entry) (post_counter : Nat) (output_dir : String)
    (mode : Mode) (download_images_separately : Bool) (rss_url : String) : PostOutcome :=
  let post_url := entry.link
  match w.fetchPost post_url with
  | .exn => { record := none, effects := [], crashed := true }
  | .badStatus _ => { record := none, effects := [], crashed := false }
  | .ok post_content =>
    let post_title := sanitize_filename entry.title
    let pd : Option Date :=
      match entry.published with
      | some s => w.parseDate s
      | none => some w.now
    match pd with
    | none => { record := none, effects := [], crashed := true }
    | some post_date =>
      let website_folder := output_dir ++ "/" ++ get_website_name post_url
      let is_blogspot := (is_blogspot_site w post_url).isSome
      let post_folder := post_folder_path output_dir post_url post_counter entry.title
      let post_body_div : Option Html :=
        if is_blogspot then locate_chain post_content else some post_content
      let hpb := has_post_body is_blogspot post_content
      let images_folder : Option String :=
        if download_images_separately then some (post_folder ++ "/images") else none
      let img_effs : List Eff :=
        match images_folder with
        | some f =>
          Eff.mkdirP f ::
            (if is_blogspot && hpb then
               download_images w (post_body_div.getD post_content) f rss_url true
             else download_images w post_content f rss_url false)
        | none => []
      let content := exported_content is_blogspot post_content
      let ex := export_step w mode post_folder post_title content images_folder
      if ex.2 then
        { record := none,
          effects := [Eff.mkdirP website_folder, Eff.mkdirP post_folder] ++ img_effs ++ ex.1,
          crashed := true }
      else
        { record := some { title := entry.title, url := post_url,
                           published_date := post_date.isoformat, has_post_body := hpb },
          effects := [Eff.mkdirP website_folder, Eff.mkdirP post_folder] ++ img_effs ++ ex.1,
          crashed := false }

/-! ## The orchestrator

One page: all entries are submitted to the pool first — each submission
pairing the entry with the current value of the synchronously incremented
counter — and only then are the futures joined.  The tasks of a page run to
completion in some interleaving regardless of a failure among them (the
executor's shutdown waits for submitted work), so the page's records and
effects are those of all tasks, in an order chosen by a permutation
parameter; a crashed task makes the page's first `future.result()` re-raise,
which the caller does not catch. -/

/-- Pair each entry with its submission-time counter value. -/
def number_from (c : Nat) : List Entry → List (Nat × Entry)
  | [] => []
  | e :: es => (c, e) :: number_from (c + 1) es

/-- What one page's pool produced. -/
structure PageResult where
  records : List PostRecord
  effects : List Eff
  crashed : Bool
deriving DecidableEq

/-- Run one page's already-submitted tasks in the order given by `order`
(a permutation of the submission indices; stray indices denote no task). -/
def exec_page (w : World) (subs : List (Nat × Entry)) (order : List Nat)
    (output_dir : String) (mode : Mode) (download_images_separately : Bool)
    (rss_url : String) : PageResult :=
  let outs := order.filterMap (fun j =>
    (subs[j]?).map (fun ce =>
      process_post w ce.2 ce.1 output_dir mode download_images_separately rss_url))
  { records := outs.filterMap (fun o => o.record),
    effects := (outs.map (fun o => o.effects)).flatten,
    crashed := outs.any (fun o => o.crashed) }

/-- How a run ended. -/
inductive RunStatus where
  | finished | crashed | fuelOut
deriving DecidableEq

/-- Everything observable about a run: its final status, the metadata list,
the submission list (counter, entry) in submission order, the concatenated
feed entries of all fetched nonempty pages, the filesystem trace and the
`save_metadata` events. -/
structure RunOutcome where
  status : RunStatus
  meta : List PostRecord
  subs : List (Nat × Entry)
  feed : List Entry
  effects : List Eff
  saves : List SaveEvent
deriving DecidableEq

/-- The `while True` pagination loop of `scrape_and_save_rss_posts`, with a
fuel parameter standing for the (unbounded) iteration count: fetch the page
at the current start index; a bozo or empty page breaks the loop and the
metadata is saved as JSON; otherwise submit every entry (incrementing the
counter synchronously), join the pool — a task exception re-raised by
`future.result()` ends the run with nothing further executed — advance the
start index by the number of entries, save CSV metadata when debugging,
and iterate. -/
def run_loop (w : World) (perms : Nat → List Nat) (output_dir : String) (mode : Mode)
    (download_images_separately debug : Bool) (feed_url : String) :
    Nat → Nat → Nat → Nat → List PostRecord → List (Nat × Entry) → List Entry →
    List Eff → List SaveEvent → RunOutcome
  | 0, _, _, _, meta, subs, feed, effs, saves =>
    { status := .fuelOut, meta := meta, subs := subs, feed := feed, effects := effs,
      saves := saves }
  | fuel + 1, start_index, counter, page_idx, meta, subs, feed, effs, saves =>
    match fetch_rss_feed w feed_url start_index 500 with
    | none =>
      { status := .finished, meta := meta, subs := subs, feed := feed, effects := effs,
        saves := saves ++ [save_metadata meta true] }
    | some [] =>
      { status := .finished, meta := meta, subs := subs, feed := feed, effects := effs,
        saves := saves ++ [save_metadata meta true] }
    | some (e :: es) =>
      let entries := e :: es
      let new_subs := number_from counter entries
      let page := exec_page w new_subs (perms page_idx) output_dir mode
        download_images_separately feed_url
      if page.crashed then
        { status := .crashed, meta := meta ++ page.records, subs := subs ++ new_subs,
          feed := feed ++ entries, effects := effs ++ page.effects, saves := saves }
      else
        run_loop w perms output_dir mode download_images_separately debug feed_url
          fuel (start_index + entries.length) (counter + entries.length) (page_idx + 1)
          (meta ++ page.records) (subs ++ new_subs) (feed ++ entries)
          (effs ++ page.effects)
          (saves ++ (if debug then [save_metadata (meta ++ page.records) false] else []))

/-- Source `scrape_and_save_rss_posts`: create the output directory, resolve
the feed URL once (the resolved URL is also what image resolution joins
against), and run the pagination loop from start index 1 and counter 1. -/
def scrape_and_save_rss_posts (w : World) (perms : Nat → List Nat) (fuel : Nat)
    (rss_url output_dir : String) (mode : Mode)
    (download_images_separately debug : Bool) : RunOutcome :=
  let feed_url := determine_rss_feed_url w rss_url
  run_loop w perms output_dir mode download_images_separately debug feed_url
    fuel 1 1 0 [] [] [] [Eff.mkdirP output_dir] []

/-! ## Concrete scenarios

Closed evaluation fixtures: a fully inert world, and small worlds that each
realise one concrete run of the program. -/

/-- Is an effect a file removal? -/
def is_remove_eff : Eff → Bool
  | .removeFile _ => true
  | _ => false

/-- A world whose oracles all fail or return fixed inert values; the
scenarios below override individual oracles. -/
def inert_world : World where
  headStatus := fun _ => none
  headContentType := fun _ => ""
  getHtml := fun _ => none
  parseFeed := fun _ => some []
  fetchPost := fun _ => .badStatus 404
  imgBytes := fun _ => none
  parseDate := fun _ => none
  now := { year := 2024, month := 1, day := 2, hour := 3, minute := 4, second := 5,
           microsecond := 0, tz_minutes := none }
  render := fun _ _ => .ok
  writeOk := fun _ => true

/-- A minimal parsed post with no recognised container. -/
def doc_plain : Html := .node "html" [] [.node "p" [] [.text "hi"]]

/-- An `entry-content` container div. -/
def div_entry_only : Html := .node "div" [("class", "entry-content")] [.text "body text"]

/-- A parsed post whose only recognised container is `entry-content` —
no `post-body` div anywhere. -/
def doc_entry_only : Html := .node "html" [] [div_entry_only]

/-- A post entry on a site whose Blogspot probe succeeds. -/
def entry_c1 : Entry := { title := "T1", link := "http://s1.com/p", published := none }

/-- A world where the Blogspot probe answers 200/xml and the post parses to
`doc_entry_only`. -/
def world_c1 : World :=
  { inert_world with
    headStatus := fun u =>
      if u = "http://s1.com/p/feeds/posts/default?alt=rss" then some 200 else none
    headContentType := fun _ => "application/xml"
    fetchPost := fun _ => .ok doc_entry_only }

/-- A feed entry whose post fetch raises. -/
def entry_c2 : Entry := { title := "A", link := "http://s2.com/a", published := none }

/-- A world with one feed page of one entry whose fetch raises a transport
exception. -/
def world_c2 : World :=
  { inert_world with
    parseFeed := fun u =>
      if u = "u2&start-index=1&max-results=500" then some [entry_c2] else some []
    fetchPost := fun _ => .exn }

/-- First-page entry whose fetch raises. -/
def entry_c4a : Entry := { title := "P1", link := "http://s4.com/1", published := none }

/-- Second-page entry that would process fine. -/
def entry_c4b : Entry := { title := "P2", link := "http://s4.com/2", published := none }

/-- A world with a well-formed nonempty first page whose single task raises,
and a second page waiting at the advanced offset. -/
def world_c4 : World :=
  { inert_world with
    parseFeed := fun u =>
      if u = "u4&start-index=1&max-results=500" then some [entry_c4a]
      else if u = "u4&start-index=2&max-results=500" then some [entry_c4b]
      else some []
    fetchPost := fun u => if u = "http://s4.com/1" then .exn else .ok doc_plain }

/-- A world whose only feed entry has an empty title (RSS items may omit or
empty the title element) and an ordinary absolute link whose fetch
succeeds. -/
def world_c5 : World :=
  { inert_world with
    parseFeed := fun u =>
      if u = "u5&start-index=1&max-results=500" then
        some [{ title := "", link := "http://s5.com/p", published := none }]
      else some []
    fetchPost := fun _ => .ok doc_plain }

/-- A world where the Blogspot feed probe fails (404 everywhere except the
generic candidate `/feed/`), yet the home page carries the `blogger.com`
marker, so the CMS detector classifies the site as Blogspot. -/
def world_c6 : World :=
  { inert_world with
    headStatus := fun u => if u = "http://ex.com/feed/" then some 200 else some 404
    getHtml := fun _ => some "powered by blogger.com" }

/-- A post containing one image whose URL has no path extension but a query
string ending in `.png`. -/
def doc_c7 : Html := .node "body" [] [.node "img" [("src", "http://x/img?f=.png")] []]

/-- A world whose image fetches succeed with fixed bytes. -/
def world_c7 : World := { inert_world with imgBytes := fun _ => some "DATA" }

/-- A world whose HTML-to-PDF renderer raises an exception that is not an
`OSError`. -/
def world_c8 : World := { inert_world with render := fun _ _ => .otherExn }

/-- First entry of the C10 scenario: its fetch returns a non-success
status. -/
def entry_c10a : Entry := { title := "Post One", link := "http://s10.com/1", published := none }

/-- Second entry of the C10 scenario: processed normally. -/
def entry_c10b : Entry := { title := "Post Two", link := "http://s10.com/2", published := none }

/-- A world with one page of two entries where the first entry's fetch
returns a non-success status and the second succeeds. -/
def world_c10 : World :=
  { inert_world with
    parseFeed := fun u =>
      if u = "u10&start-index=1&max-results=500" then some [entry_c10a, entry_c10b]
      else some []
    fetchPost := fun u => if u = "http://s10.com/1" then .badStatus 404 else .ok doc_plain }

/-! ## General lemmas about the embedding -/

/-- A final decimal digit always renders as a digit character. -/
theorem digitChar_mod_isDigit (n : Nat) : (Nat.digitChar (n % 10)).isDigit = true := by
  have h : n % 10 < 10 := Nat.mod_lt _ (by omega)
  set k := n % 10 with hk
  interval_cases k <;> rfl

/-- Every offset suffix an aware datetime renders is recognised. -/
theorem tz_offset_chars_iso (off : Int) : iso_offset_chars (tz_offset_chars off) = true := by
  by_cases h : off < 0 <;>
    simp [tz_offset_chars, h, iso_offset_chars, two_digit_chars, digitChar_mod_isDigit]

/-- Every rendered date has one of the ISO-8601 shapes the recogniser
accepts. -/
theorem isoformat_is_iso8601 (d : Date) : is_iso8601 d.isoformat = true := by
  have htz : iso_offset_chars (match d.tz_minutes with
      | none => []
      | some off => tz_offset_chars off) = true := by
    cases d.tz_minutes with
    | none => rfl
    | some off => exact tz_offset_chars_iso off
  have htail : iso_tail_chars
      ((if d.microsecond = 0 then [] else '.' :: six_digit_chars d.microsecond) ++
        (match d.tz_minutes with
         | none => []
         | some off => tz_offset_chars off)) = true := by
    by_cases hm : d.microsecond = 0
    · rw [if_pos hm]
      rw [List.nil_append]
      cases htzm : d.tz_minutes with
      | none => rfl
      | some off =>
        rw [htzm] at htz
        by_cases hoff : off < 0 <;>
          simp only [tz_offset_chars, hoff, if_pos, if_neg, if_true, if_false] at htz ⊢ <;>
          simpa [iso_tail_chars] using htz
    · rw [if_neg hm]
      simp only [List.cons_append, six_digit_chars, List.append_eq]
      simp [iso_tail_chars, digitChar_mod_isDigit, htz]
  simp only [Date.isoformat, is_iso8601, two_digit_chars, four_digit_chars]
  simp only [List.cons_append, List.nil_append, List.append_assoc]
  simp [digitChar_mod_isDigit, htail, two_digit_chars, four_digit_chars]

/-- Submission numbering distributes over page concatenation. -/
theorem number_from_append (c : Nat) (a b : List Entry) :
    number_from c (a ++ b) = number_from c a ++ number_from (c + a.length) b := by
  induction a generalizing c with
  | nil => simp [number_from]
  | cons e es ih =>
    simp only [List.cons_append, number_from, List.length_cons, List.append_eq]
    rw [ih]
    have h2 : c + 1 + es.length = c + (es.length + 1) := by omega
    rw [h2]

/-- The length of a numbered submission list. -/
theorem number_from_length (c : Nat) (l : List Entry) :
    (number_from c l).length = l.length := by
  induction l generalizing c with
  | nil => rfl
  | cons e es ih => simp [number_from, ih]

/-- The `k`-th submission of a page starting at counter `c` carries counter
`c + k` and the `k`-th entry. -/
theorem number_from_get (c : Nat) (l : List Entry) (k : Nat) (h : k < l.length) :
    (number_from c l)[k]? = some (c + k, l[k]) := by
  induction l generalizing c k with
  | nil => simp at h
  | cons e es ih =>
    cases k with
    | zero => simp [number_from]
    | succ k =>
      simp only [number_from, List.getElem?_cons_succ, List.getElem_cons_succ]
      rw [ih (c + 1) k (by simpa using h)]
      have h2 : c + 1 + k = c + (k + 1) := by omega
      rw [h2]

/-- A post whose fetch returns no content (non-success status) is a no-op:
no record, no filesystem effect, no exception. -/
theorem process_post_badStatus (w : World) (entry : Entry) (c : Nat) (od : String)
    (m : Mode) (dl : Bool) (ru : String) (n : Nat)
    (h : w.fetchPost entry.link = .badStatus n) :
    process_post w entry c od m dl ru = { record := none, effects := [], crashed := false } := by
  simp only [process_post, h]

/-- Every record `process_post` appends carries the entry's title and link
verbatim and an ISO-8601 rendering of its date. -/
theorem process_post_record_src (w : World) (entry : Entry) (c : Nat) (od : String)
    (m : Mode) (dl : Bool) (ru : String) (r : PostRecord)
    (h : (process_post w entry c od m dl ru).record = some r) :
    r.title = entry.title ∧ r.url = entry.link ∧ is_iso8601 r.published_date = true := by
  simp only [process_post] at h
  cases hf : w.fetchPost entry.link <;> simp only [hf] at h
  · cases hd : (match entry.published with
      | some s => w.parseDate s
      | none => some w.now) with
    | none => simp only [hd] at h; simp at h
    | some d =>
      simp only [hd] at h
      split at h <;> split at h <;> simp only [Option.some.injEq, reduceCtorEq] at h <;>
        (subst h; exact ⟨rfl, rfl, isoformat_is_iso8601 d⟩)
  · simp at h
  · simp at h

/-- A submission produced by `number_from` pairs a counter with an entry of
the underlying list. -/
theorem number_from_mem_snd (c : Nat) (l : List Entry) (ce : Nat × Entry)
    (h : ce ∈ number_from c l) : ce.2 ∈ l := by
  induction l generalizing c with
  | nil => simp [number_from] at h
  | cons e es ih =>
    simp only [number_from, List.mem_cons] at h
    rcases h with h | h
    · subst h; simp
    · exact List.mem_cons_of_mem _ (ih (c + 1) h)

/-- Every record a page produces was appended by the `process_post` task of
one of the page's submissions. -/
theorem exec_page_records_mem (w : World) (subs : List (Nat × Entry)) (order : List Nat)
    (od : String) (m : Mode) (dl : Bool) (ru : String) (r : PostRecord)
    (h : r ∈ (exec_page w subs order od m dl ru).records) :
    ∃ ce ∈ subs, (process_post w ce.2 ce.1 od m dl ru).record = some r := by
  simp only [exec_page, List.mem_filterMap] at h
  obtain ⟨o, ho, hrec⟩ := h
  obtain ⟨j, _, hj⟩ := ho
  cases hce : subs[j]? with
  | none => rw [hce] at hj; simp at hj
  | some ce =>
    rw [hce] at hj
    simp only [Option.map_some', Option.some.injEq] at hj
    exact ⟨ce, List.getElem?_mem hce, by rw [hj]; exact hrec⟩

/-- The JSON payloads among a list of `save_metadata` events. -/
def json_payloads (l : List SaveEvent) : List (List PostRecord) :=
  l.filterMap (fun e => match e with | .json m => some m | .csv _ => none)

/-- Invariant of the pagination loop: the accumulated submission list is the
feed-so-far numbered from 1 — the counter is advanced synchronously at
submission time, so numbering never depends on task completion. -/
theorem run_loop_subs_numbered (w : World) (perms : Nat → List Nat) (od : String)
    (m : Mode) (dl dbg : Bool) (fu : String) :
    ∀ (fuel s c p : Nat) (meta : List PostRecord) (subs : List (Nat × Entry))
      (feed : List Entry) (effs : List Eff) (saves : List SaveEvent),
      subs = number_from 1 feed → c = feed.length + 1 →
      (run_loop w perms od m dl dbg fu fuel s c p meta subs feed effs saves).subs =
        number_from 1 (run_loop w perms od m dl dbg fu fuel s c p meta subs feed effs saves).feed := by
  intro fuel
  induction fuel with
  | zero =>
    intro s c p meta subs feed effs saves h1 _
    simpa [run_loop] using h1
  | succ fuel ih =>
    intro s c p meta subs feed effs saves h1 h2
    cases hfeed : fetch_rss_feed w fu s 500 with
    | none => simpa [run_loop, hfeed] using h1
    | some es =>
      cases es with
      | nil => simpa [run_loop, hfeed] using h1
      | cons e es =>
        simp only [run_loop, hfeed]
        split
        · subst h1
          simp only
          rw [number_from_append, show 1 + feed.length = c from by omega]
        · apply ih
          · subst h1
            rw [number_from_append, show 1 + feed.length = c from by omega]
          · simp only [List.length_append, List.length_cons]
            omega

/-- Invariant of the pagination loop: when no JSON save has happened yet, a
run that finishes persists the final metadata as JSON exactly once (debug
saves are CSV and contribute no JSON payload). -/
theorem run_loop_json_saves (w : World) (perms : Nat → List Nat) (od : String)
    (m : Mode) (dl dbg : Bool) (fu : String) :
    ∀ (fuel s c p : Nat) (meta : List PostRecord) (subs : List (Nat × Entry))
      (feed : List Entry) (effs : List Eff) (saves : List SaveEvent),
      json_payloads saves = [] →
      (run_loop w perms od m dl dbg fu fuel s c p meta subs feed effs saves).status = .finished →
      json_payloads (run_loop w perms od m dl dbg fu fuel s c p meta subs feed effs saves).saves =
        [(run_loop w perms od m dl dbg fu fuel s c p meta subs feed effs saves).meta] := by
  intro fuel
  induction fuel with
  | zero =>
    intro s c p meta subs feed effs saves h0 hst
    simp [run_loop] at hst
  | succ fuel ih =>
    intro s c p meta subs feed effs saves h0 hst
    cases hfeed : fetch_rss_feed w fu s 500 with
    | none =>
      simp only [run_loop, hfeed]
      simp [json_payloads, List.filterMap_append, save_metadata]
      simpa [json_payloads] using h0
    | some es =>
      cases es with
      | nil =>
        simp only [run_loop, hfeed]
        simp [json_payloads, List.filterMap_append, save_metadata]
        simpa [json_payloads] using h0
      | cons e es =>
        simp only [run_loop, hfeed] at hst ⊢
        split at hst
        · simp at hst
        · rename_i hcr
          rw [if_neg hcr]
          refine ih _ _ _ _ _ _ _ _ ?_ hst
          simp only [json_payloads, List.filterMap_append] at h0 ⊢
          rw [h0]
          cases dbg <;> simp [save_metadata]

/-- Invariant of the pagination loop: every accumulated metadata record was
appended by some post task, so it carries a feed entry's title and link
verbatim together with an ISO-8601 date rendering. -/
theorem run_loop_meta_provenance (w : World) (perms : Nat → List Nat) (od : String)
    (m : Mode) (dl dbg : Bool) (fu : String) :
    ∀ (fuel s c p : Nat) (meta : List PostRecord) (subs : List (Nat × Entry))
      (feed : List Entry) (effs : List Eff) (saves : List SaveEvent),
      (∀ r ∈ meta, is_iso8601 r.published_date = true ∧
        ∃ e ∈ feed, r.title = e.title ∧ r.url = e.link) →
      ∀ r ∈ (run_loop w perms od m dl dbg fu fuel s c p meta subs feed effs saves).meta,
        is_iso8601 r.published_date = true ∧
        ∃ e ∈ (run_loop w perms od m dl dbg fu fuel s c p meta subs feed effs saves).feed,
          r.title = e.title ∧ r.url = e.link := by
  intro fuel
  induction fuel with
  | zero =>
    intro s c p meta subs feed effs saves h0
    simpa [run_loop] using h0
  | succ fuel ih =>
    intro s c p meta subs feed effs saves h0
    cases hfeed : fetch_rss_feed w fu s 500 with
    | none => simpa [run_loop, hfeed] using h0
    | some es =>
      cases es with
      | nil => simpa [run_loop, hfeed] using h0
      | cons e es =>
        have hstep : ∀ r ∈ meta ++ (exec_page w (number_from c (e :: es)) (perms p) od m dl
            fu).records,
            is_iso8601 r.published_date = true ∧
            ∃ e2 ∈ feed ++ (e :: es), r.title = e2.title ∧ r.url = e2.link := by
          intro r hr
          rcases List.mem_append.mp hr with hr | hr
          · obtain ⟨hiso, e2, he2, ht, hu⟩ := h0 r hr
            exact ⟨hiso, e2, List.mem_append_left _ he2, ht, hu⟩
          · obtain ⟨ce, hce, hrec⟩ := exec_page_records_mem w _ _ od m dl fu r hr
            obtain ⟨ht, hu, hiso⟩ := process_post_record_src w ce.2 ce.1 od m dl fu r hrec
            exact ⟨hiso, ce.2,
              List.mem_append_right _ (number_from_mem_snd c (e :: es) ce hce), ht, hu⟩
        simp only [run_loop, hfeed]
        split
        · exact hstep
        · exact ih _ _ _ _ _ _ _ _ hstep

/-- Exactly when one image's loop iteration writes a file: a nonempty `src`,
a successful byte fetch, and a full-URL extension inside the allow-list;
the file lands at the sanitized basename of the resolved URL's path. -/
theorem download_image_one_mem (w : World) (folder ru : String) (img : Html)
    (p d : String) :
    Eff.writeFile p d ∈ download_image_one w folder ru img ↔
    ∃ s, attr_get img "src" = some s ∧ s ≠ "" ∧
      w.imgBytes (urljoin ru s) = some d ∧
      allowed_exts.contains (str_lower (splitext_ext (urljoin ru s))) = true ∧
      p = folder ++ "/" ++ sanitize_url (urljoin ru s) := by
  cases hs : attr_get img "src" with
  | none => simp [download_image_one, hs]
  | some s =>
    by_cases hemp : s = ""
    · subst hemp
      simp [download_image_one, hs]
    · cases hb : w.imgBytes (urljoin ru s) with
      | none => simp [download_image_one, hs, hemp, hb]
      | some data =>
        by_cases hext : allowed_exts.contains (str_lower (splitext_ext (urljoin ru s))) = true
        · simp only [download_image_one, hs, hemp, hb, hext, if_true, if_false,
            List.mem_singleton, Eff.writeFile.injEq]
          constructor
          · rintro h
            exact ⟨s, rfl, hemp, by rw [hb, h.2], hext, h.1⟩
          · rintro ⟨s2, hs2, _, hb2, _, hp⟩
            cases hs2
            rw [hb] at hb2
            cases hb2
            exact ⟨hp, rfl⟩
        · simp only [Bool.not_eq_true] at hext
          simp only [download_image_one, hs, hemp, hb, hext, Bool.false_eq_true, if_false,
            List.not_mem_nil, false_iff]
          rintro ⟨s2, hs2, _, _, hext2, _⟩
          cases hs2
          rw [hext] at hext2
          exact Bool.false_ne_true hext2

/-! ## The claims -/

/-- C1 (counterexample): on a platform-A site whose post carries only an
`entry-content` container, `has_post_body` is true and the three-marker
chain locates that container — yet the exporter receives the empty string
produced by the fresh `post-body`-only lookup, not the located container:
the concrete TXT run writes a file whose content is `""` although the
located container serialises to nonempty markup. -/
theorem c1_counterexample :
    has_post_body true doc_entry_only = true ∧
    locate_chain doc_entry_only = some div_entry_only ∧
    exported_content true doc_entry_only = Exported.emptyStr ∧
    html_str div_entry_only ≠ "" ∧
    (is_blogspot_site world_c1 entry_c1.link).isSome = true ∧
    (process_post world_c1 entry_c1 1 "out" .TXT false "http://f").effects =
      [Eff.mkdirP "out/s1.com", Eff.mkdirP "out/s1.com/1 - T1",
       Eff.writeFile "out/s1.com/1 - T1/T1.txt" ""] := by
  refine ⟨rfl, rfl, rfl, ?_, rfl, rfl⟩
  decide

/-- C1 (amended): the `has_post_body` flag is exactly as claimed — the
three-marker chain's success on the platform-A path, unconditionally true
on the fallback path — and when the flag is false the exporter receives
the whole document; but when the flag is true the exporter receives the
result of a fresh `post-body`-only lookup (the located container only when
that marker matched; the empty string otherwise), and that is what the TXT
export writes. -/
theorem c1_flag_and_export (w : World) (entry : Entry) (c : Nat) (od : String)
    (dl : Bool) (ru : String) (doc : Html)
    (hfetch : w.fetchPost entry.link = .ok doc)
    (hpub : entry.published = none)
    (hw : w.writeOk (post_folder_path od entry.link c entry.title ++ "/" ++
      sanitize_filename entry.title ++ ".txt") = true) :
    ((is_blogspot_site w entry.link).isSome = true →
      has_post_body (is_blogspot_site w entry.link).isSome doc = (locate_chain doc).isSome) ∧
    ((is_blogspot_site w entry.link).isSome = false →
      has_post_body (is_blogspot_site w entry.link).isSome doc = true) ∧
    (has_post_body (is_blogspot_site w entry.link).isSome doc = false →
      exported_content (is_blogspot_site w entry.link).isSome doc = .tree doc) ∧
    (has_post_body (is_blogspot_site w entry.link).isSome doc = true →
      exported_content (is_blogspot_site w entry.link).isSome doc =
        (match extract_content_by_div doc "post-body" with
         | some d => Exported.tree d
         | none => Exported.emptyStr)) ∧
    Eff.writeFile (post_folder_path od entry.link c entry.title ++ "/" ++
        sanitize_filename entry.title ++ ".txt")
      (py_str (exported_content (is_blogspot_site w entry.link).isSome doc)) ∈
      (process_post w entry c od .TXT dl ru).effects := by
  refine ⟨?_, ?_, ?_, ?_, ?_⟩
  · intro h; simp [has_post_body, h]
  · intro h; simp [has_post_body, h]
  · intro h; simp [exported_content, h]
  · intro h; simp [exported_content, h]
  · simp only [process_post, hfetch, hpub]
    simp [export_step, save_as_txt, hw, List.mem_append]

/-- C1 (witness): the amended C1 theorem instantiated at the concrete
platform-A scenario. -/
theorem c1_witness :
    Eff.writeFile "out/s1.com/1 - T1/T1.txt"
      (py_str (exported_content (is_blogspot_site world_c1 entry_c1.link).isSome
        doc_entry_only)) ∈
      (process_post world_c1 entry_c1 1 "out" .TXT false "http://f").effects := by
  have h := c1_flag_and_export world_c1 entry_c1 1 "out" false "http://f" doc_entry_only
    rfl rfl rfl
  exact h.2.2.2.2

/-- C2 (counterexample): a run whose single post fetch raises a transport
exception ends with a propagated exception (crashed), not via the
malformed-feed terminal condition, and persists no metadata at all —
the failure is not confined to the post. -/
theorem c2_counterexample :
    (scrape_and_save_rss_posts world_c2 (fun _ => [0]) 3 "u2" "o2" .TXT false false).status =
      RunStatus.crashed ∧
    (scrape_and_save_rss_posts world_c2 (fun _ => [0]) 3 "u2" "o2" .TXT false false).saves =
      [] := by
  refine ⟨rfl, rfl⟩

/-- C2 (amended): what the code confines and what it does not.  A
non-success HTTP status on a post fetch is confined to that post: the
task does nothing and the run continues.  A per-image request failure is
confined to that image: the iteration contributes no write, and the loop
handles every image in scope independently, so sibling images are
unaffected.  But an exception that escapes a task — a transport exception
on the post fetch, a date-parse error, an exporter exception outside the
caught `OSError` class, or any of the uncaught `OSError` paths
(`os.makedirs`, the raw image and temporary-HTML writes, the final JSON
`open`) that this embedding models as succeeding — aborts the whole run:
a page whose pool reports a crash ends the run right there, with no
offset advance, no further page and no metadata save. -/
theorem c2_failure_confinement :
    (∀ (w : World) (entry : Entry) (c : Nat) (od : String) (m : Mode) (dl : Bool)
      (ru : String) (n : Nat), w.fetchPost entry.link = .badStatus n →
      process_post w entry c od m dl ru =
        { record := none, effects := [], crashed := false }) ∧
    (∀ (w : World) (folder ru : String) (img : Html) (s : String),
      attr_get img "src" = some s → s ≠ "" → w.imgBytes (urljoin ru s) = none →
      download_image_one w folder ru img = []) ∧
    (∀ (w : World) (doc : Html) (folder ru : String) (ipb : Bool) (xs ys : List Html),
      images_in_scope doc ipb = xs ++ ys →
      download_images w doc folder ru ipb =
        xs.flatMap (download_image_one w folder ru) ++
          ys.flatMap (download_image_one w folder ru)) ∧
    (∀ (w : World) (perms : Nat → List Nat) (od : String) (m : Mode) (dl dbg : Bool)
      (fu : String) (fuel s c p : Nat) (meta : List PostRecord)
      (subs : List (Nat × Entry)) (feed : List Entry) (effs : List Eff)
      (saves : List SaveEvent) (e : Entry) (es : List Entry),
      fetch_rss_feed w fu s 500 = some (e :: es) →
      (exec_page w (number_from c (e :: es)) (perms p) od m dl fu).crashed = true →
      run_loop w perms od m dl dbg fu (fuel + 1) s c p meta subs feed effs saves =
        { status := .crashed,
          meta := meta ++
            (exec_page w (number_from c (e :: es)) (perms p) od m dl fu).records,
          subs := subs ++ number_from c (e :: es),
          feed := feed ++ (e :: es),
          effects := effs ++
            (exec_page w (number_from c (e :: es)) (perms p) od m dl fu).effects,
          saves := saves }) := by
  refine ⟨process_post_badStatus, ?_, ?_, ?_⟩
  · intro w folder ru img s hs hemp hb
    simp [download_image_one, hs, hemp, hb]
  · intro w doc folder ru ipb xs ys h
    simp only [download_images, h, List.flatMap_append]
  · intro w perms od m dl dbg fu fuel s c p meta subs feed effs saves e es hfeed hcr
    simp only [run_loop, hfeed, hcr, if_true]

/-- C2 (witness): the amended confinement theorem at concrete inputs — a
skipped non-success post, a failing image download that contributes no
write while its sibling image is still written, and the concrete crashing
page that ends a run. -/
theorem c2_witness :
    process_post inert_world entry_c2 2 "o" .MD false "r" =
      { record := none, effects := [], crashed := false } ∧
    download_image_one inert_world "F" "http://b/"
      (.node "img" [("src", "http://x/a.jpg")] []) = [] ∧
    download_images world_c7 doc_c7 "IMG" "http://b/" false =
      [].flatMap (download_image_one world_c7 "IMG" "http://b/") ++
        [Html.node "img" [("src", "http://x/img?f=.png")] []].flatMap
          (download_image_one world_c7 "IMG" "http://b/") ∧
    run_loop world_c2 (fun _ => [0]) "o2" .TXT false false "u2" 3 1 1 0 [] [] []
        [Eff.mkdirP "o2"] [] =
      { status := .crashed, meta := [], subs := [(1, entry_c2)], feed := [entry_c2],
        effects := [Eff.mkdirP "o2"], saves := [] } := by
  refine ⟨?_, ?_, ?_, ?_⟩
  · exact c2_failure_confinement.1 inert_world entry_c2 2 "o" .MD false "r" 404 rfl
  · exact c2_failure_confinement.2.1 inert_world "F" "http://b/"
      (.node "img" [("src", "http://x/a.jpg")] []) "http://x/a.jpg" rfl (by decide) rfl
  · exact c2_failure_confinement.2.2.1 world_c7 doc_c7 "IMG" "http://b/" false
      [] [Html.node "img" [("src", "http://x/img?f=.png")] []] rfl
  · have h := c2_failure_confinement.2.2.2 world_c2 (fun _ => [0]) "o2" .TXT false false
      "u2" 2 1 1 0 [] [] [] [Eff.mkdirP "o2"] [] entry_c2 [] rfl rfl
    simpa using h

/-- C3 (confirmed): in every run — over every world, fuel bound and every
completion order of the worker pools — the submission list equals the
concatenated feed entries numbered from 1 in feed order, because the
counter is incremented synchronously at submission time; the `k`-th
submission carries counter `c + k`; and whenever a post task touches the
filesystem at all, the folder it creates is named with its submission-time
counter. -/
theorem c3_submission_numbering :
    (∀ (w : World) (perms : Nat → List Nat) (fuel : Nat) (ru od : String) (m : Mode)
      (dl dbg : Bool),
      (scrape_and_save_rss_posts w perms fuel ru od m dl dbg).subs =
        number_from 1 (scrape_and_save_rss_posts w perms fuel ru od m dl dbg).feed) ∧
    (∀ (c : Nat) (l : List Entry) (k : Nat) (hk : k < l.length),
      (number_from c l)[k]? = some (c + k, l[k])) ∧
    (∀ (w : World) (entry : Entry) (c : Nat) (od : String) (m : Mode) (dl : Bool)
      (ru : String),
      (process_post w entry c od m dl ru).effects ≠ [] →
      Eff.mkdirP (post_folder_path od entry.link c entry.title) ∈
        (process_post w entry c od m dl ru).effects) := by
  refine ⟨?_, ?_, ?_⟩
  · intro w perms fuel ru od m dl dbg
    simpa [scrape_and_save_rss_posts] using
      run_loop_subs_numbered w perms od m dl dbg (determine_rss_feed_url w ru)
        fuel 1 1 0 [] [] [] [Eff.mkdirP od] [] rfl rfl
  · exact number_from_get
  · intro w entry c od m dl ru hne
    simp only [process_post] at hne ⊢
    cases hf : w.fetchPost entry.link <;> simp only [hf] at hne ⊢
    case ok doc =>
      cases hd : (match entry.published with
        | some s => w.parseDate s
        | none => some w.now) with
      | none => rw [hd] at hne; exact absurd rfl hne
      | some d =>
        simp only [hd] at hne ⊢
        rw [apply_ite PostOutcome.effects]
        split <;> simp
    case badStatus n => exact absurd rfl hne
    case exn => exact absurd rfl hne

/-- C3 (witness): the numbering theorem at a concrete two-entry run with a
reversed completion order, plus a concrete indexed submission and a
concrete folder creation. -/
theorem c3_witness :
    (scrape_and_save_rss_posts world_c10 (fun _ => [1, 0]) 3 "u10" "o10" .TXT false
        false).subs =
      number_from 1 (scrape_and_save_rss_posts world_c10 (fun _ => [1, 0]) 3 "u10" "o10"
        .TXT false false).feed ∧
    (number_from 1 [entry_c10a, entry_c10b])[1]? = some (1 + 1, entry_c10b) ∧
    Eff.mkdirP (post_folder_path "o10" entry_c10b.link 2 entry_c10b.title) ∈
      (process_post world_c10 entry_c10b 2 "o10" .TXT false "u10").effects := by
  refine ⟨?_, ?_, ?_⟩
  · exact c3_submission_numbering.1 world_c10 (fun _ => [1, 0]) 3 "u10" "o10" .TXT false false
  · have h := c3_submission_numbering.2.1 1 [entry_c10a, entry_c10b] 1 (by decide)
    exact h
  · exact c3_submission_numbering.2.2 world_c10 entry_c10b 2 "o10" .TXT false "u10"
      (by decide)

/-- C4 (counterexample): a run whose first page is well-formed and nonempty
but whose single task raises ends right there — the loop terminates
without any malformed or empty page having been fetched, the offset is
never advanced, and the second page, which exists at the advanced offset,
is never submitted; no metadata is persisted. -/
theorem c4_counterexample :
    (scrape_and_save_rss_posts world_c4 (fun _ => [0]) 3 "u4" "o4" .TXT false false).status =
      RunStatus.crashed ∧
    (scrape_and_save_rss_posts world_c4 (fun _ => [0]) 3 "u4" "o4" .TXT false false).feed =
      [entry_c4a] ∧
    (scrape_and_save_rss_posts world_c4 (fun _ => [0]) 3 "u4" "o4" .TXT false false).saves =
      [] ∧
    fetch_rss_feed world_c4 "u4" 2 500 = some [entry_c4b] := by
  refine ⟨rfl, rfl, rfl, rfl⟩

/-- C4 (amended): the pagination transition rule as the code implements it —
a malformed or empty page terminates the loop at once with a single JSON
metadata save; a well-formed nonempty page whose pool reports no crash
advances the start index and the counter by the page length and iterates;
a malformed feed on the very first fetch ends the run immediately with
zero processed posts and an empty JSON save.  (A page whose pool crashed
instead aborts the run without advancing, as the counterexample shows.) -/
theorem c4_pagination_transitions :
    (∀ (w : World) (perms : Nat → List Nat) (od : String) (m : Mode) (dl dbg : Bool)
      (fu : String) (fuel s c p : Nat) (meta : List PostRecord)
      (subs : List (Nat × Entry)) (feed : List Entry) (effs : List Eff)
      (saves : List SaveEvent),
      (fetch_rss_feed w fu s 500 = none →
        run_loop w perms od m dl dbg fu (fuel + 1) s c p meta subs feed effs saves =
          { status := .finished, meta := meta, subs := subs, feed := feed, effects := effs,
            saves := saves ++ [save_metadata meta true] }) ∧
      (fetch_rss_feed w fu s 500 = some [] →
        run_loop w perms od m dl dbg fu (fuel + 1) s c p meta subs feed effs saves =
          { status := .finished, meta := meta, subs := subs, feed := feed, effects := effs,
            saves := saves ++ [save_metadata meta true] }) ∧
      (∀ (e : Entry) (es : List Entry), fetch_rss_feed w fu s 500 = some (e :: es) →
        (exec_page w (number_from c (e :: es)) (perms p) od m dl fu).crashed = false →
        run_loop w perms od m dl dbg fu (fuel + 1) s c p meta subs feed effs saves =
          run_loop w perms od m dl dbg fu fuel (s + (e :: es).length)
            (c + (e :: es).length) (p + 1)
            (meta ++ (exec_page w (number_from c (e :: es)) (perms p) od m dl fu).records)
            (subs ++ number_from c (e :: es)) (feed ++ (e :: es))
            (effs ++ (exec_page w (number_from c (e :: es)) (perms p) od m dl fu).effects)
            (saves ++ (if dbg then
              [save_metadata
                (meta ++ (exec_page w (number_from c (e :: es)) (perms p) od m dl fu).records)
                false]
              else [])))) ∧
    (∀ (w : World) (perms : Nat → List Nat) (fuel : Nat) (ru od : String) (m : Mode)
      (dl dbg : Bool),
      fetch_rss_feed w (determine_rss_feed_url w ru) 1 500 = none →
      scrape_and_save_rss_posts w perms (fuel + 1) ru od m dl dbg =
        { status := .finished, meta := [], subs := [], feed := [],
          effects := [Eff.mkdirP od], saves := [save_metadata [] true] }) := by
  constructor
  · intro w perms od m dl dbg fu fuel s c p meta subs feed effs saves
    refine ⟨?_, ?_, ?_⟩
    · intro h
      simp only [run_loop, h]
    · intro h
      simp only [run_loop, h]
    · intro e es h hcr
      simp only [run_loop, h, hcr, Bool.false_eq_true, if_false]
  · intro w perms fuel ru od m dl dbg h
    simp only [scrape_and_save_rss_posts, run_loop, h]
    rfl

/-- C4 (witness): the transition equations at concrete pages — the
terminal branch on an exhausted feed and the advancing branch on a
crash-free page — and the first-fetch-malformed scenario on a world whose
feed parser always reports a malformed document. -/
theorem c4_witness :
    run_loop world_c10 (fun _ => [0, 1]) "o10" .TXT false false "u10" 3 3 3 1
      [] [] [] [] [] =
      { status := .finished, meta := [], subs := [], feed := [], effects := [],
        saves := [save_metadata [] true] } ∧
    scrape_and_save_rss_posts { inert_world with parseFeed := fun _ => none }
        (fun _ => [0]) 4 "ub" "ob" .TXT false false =
      { status := .finished, meta := [], subs := [], feed := [],
        effects := [Eff.mkdirP "ob"], saves := [save_metadata [] true] } := by
  constructor
  · exact (c4_pagination_transitions.1 world_c10 (fun _ => [0, 1]) "o10" .TXT false false
      "u10" 2 3 3 1 [] [] [] [] []).2.1 rfl
  · exact c4_pagination_transitions.2 { inert_world with parseFeed := fun _ => none }
      (fun _ => [0]) 3 "ub" "ob" .TXT false false rfl

/-- C5 (counterexample): a finished run whose single feed entry carries an
empty title — its link an ordinary absolute URL whose fetch succeeds, so
the whole execution is realizable — persists exactly that record: the
JSON output contains a record whose title is empty, contradicting the
claimed "non-empty title" record shape. -/
theorem c5_counterexample :
    (scrape_and_save_rss_posts world_c5 (fun _ => [0]) 3 "u5" "o5" .TXT false false).status =
      RunStatus.finished ∧
    (scrape_and_save_rss_posts world_c5 (fun _ => [0]) 3 "u5" "o5" .TXT false false).meta =
      [{ title := "", url := "http://s5.com/p", published_date := "2024-01-02T03:04:05",
         has_post_body := true }] ∧
    (scrape_and_save_rss_posts world_c5 (fun _ => [0]) 3 "u5" "o5" .TXT false false).saves =
      [SaveEvent.json
        [{ title := "", url := "http://s5.com/p", published_date := "2024-01-02T03:04:05",
           has_post_body := true }]] := by
  refine ⟨rfl, rfl, rfl⟩

/-- C5 (amended): a finished run persists its metadata as JSON exactly once,
with the final record list as payload (the JSON `open` itself is modelled
as succeeding; its `OSError` is uncaught in the source and would abort
the run un-persisted); and every record carries a processed feed entry's
title and link verbatim — the title is never validated and may be
empty — an ISO-8601 date string in one of the shapes `isoformat()`
renders (optionally with a fractional-second part and a UTC offset), and
a boolean `has_post_body` flag (by the record's type). -/
theorem c5_metadata_records (w : World) (perms : Nat → List Nat) (fuel : Nat)
    (ru od : String) (m : Mode) (dl dbg : Bool) :
    ((scrape_and_save_rss_posts w perms fuel ru od m dl dbg).status = .finished →
      json_payloads (scrape_and_save_rss_posts w perms fuel ru od m dl dbg).saves =
        [(scrape_and_save_rss_posts w perms fuel ru od m dl dbg).meta]) ∧
    (∀ r ∈ (scrape_and_save_rss_posts w perms fuel ru od m dl dbg).meta,
      is_iso8601 r.published_date = true ∧
      ∃ e ∈ (scrape_and_save_rss_posts w perms fuel ru od m dl dbg).feed,
        r.title = e.title ∧ r.url = e.link) := by
  constructor
  · intro h
    have := run_loop_json_saves w perms od m dl dbg (determine_rss_feed_url w ru)
      fuel 1 1 0 [] [] [] [Eff.mkdirP od] [] rfl
    simp only [scrape_and_save_rss_posts] at h ⊢
    exact this h
  · have := run_loop_meta_provenance w perms od m dl dbg (determine_rss_feed_url w ru)
      fuel 1 1 0 [] [] [] [Eff.mkdirP od] [] (by simp)
    simp only [scrape_and_save_rss_posts]
    exact this

/-- C5 (witness): the metadata theorem at the concrete single-record run. -/
theorem c5_witness :
    json_payloads (scrape_and_save_rss_posts world_c5 (fun _ => [0]) 3 "u5" "o5" .TXT
        false false).saves =
      [(scrape_and_save_rss_posts world_c5 (fun _ => [0]) 3 "u5" "o5" .TXT false
        false).meta] ∧
    is_iso8601 ("2024-01-02T03:04:05") = true := by
  constructor
  · exact (c5_metadata_records world_c5 (fun _ => [0]) 3 "u5" "o5" .TXT false false).1 rfl
  · have h := (c5_metadata_records world_c5 (fun _ => [0]) 3 "u5" "o5" .TXT false false).2
      { title := "", url := "http://s5.com/p", published_date := "2024-01-02T03:04:05",
        has_post_body := true } (by decide)
    exact h.1

/-- C6 (counterexample): the Blogspot probe fails (404), the CMS detector
classifies the site as platform-A from its page markers, a generic
candidate suffix (`/feed/`) responds 200 — the probing loop would return
it — yet the resolver skips candidate probing entirely for the
platform-A classification and returns the original URL. -/
theorem c6_counterexample :
    is_blogspot_site world_c6 "http://ex.com" = none ∧
    detect_cms world_c6 "http://ex.com" = "blogspot" ∧
    world_c6.headStatus "http://ex.com/feed/" = some 200 ∧
    find_feed_from world_c6 "http://ex.com" (potential_feeds "unknown") =
      some "http://ex.com/feed/" ∧
    determine_rss_feed_url world_c6 "http://ex.com" = "http://ex.com" := by
  refine ⟨rfl, rfl, rfl, rfl, rfl⟩

/-- C6 (amended): the resolver returns the probe's concrete feed URL
immediately when the probe yielded one; otherwise, when the CMS detector
did not classify the site as platform-A, it returns the first candidate
suffix answering 200 (the original URL when none does); when the detector
classified the site as platform-A despite the failed probe, it returns
the original URL without probing any candidate.  The probing loop indeed
returns a success exactly when some candidate answers 200. -/
theorem c6_feed_resolver (w : World) (url : String) :
    (∀ fu, is_blogspot_site w url = some fu → determine_rss_feed_url w url = fu) ∧
    (is_blogspot_site w url = none → detect_cms w url ≠ "blogspot" →
      determine_rss_feed_url w url = (find_rss_feed w url (detect_cms w url)).getD url) ∧
    (is_blogspot_site w url = none → detect_cms w url = "blogspot" →
      determine_rss_feed_url w url = url) ∧
    (∀ fs : List String, (∀ f ∈ fs, w.headStatus (rstrip_slash url ++ f) ≠ some 200) →
      find_feed_from w url fs = none) ∧
    (∀ (fs : List String) (f : String), f ∈ fs →
      w.headStatus (rstrip_slash url ++ f) = some 200 →
      (find_feed_from w url fs).isSome = true) := by
  refine ⟨?_, ?_, ?_, ?_, ?_⟩
  · intro fu h
    simp only [determine_rss_feed_url, h]
  · intro h hne
    simp only [determine_rss_feed_url, h, if_pos hne]
    cases hf : find_rss_feed w url (detect_cms w url) <;> simp [hf]
  · intro h he
    simp only [determine_rss_feed_url, h]
    rw [if_neg (by simp [he])]
  · intro fs
    induction fs with
    | nil => intro _; rfl
    | cons f fs ih =>
      intro hall
      have hf := hall f (List.mem_cons_self f fs)
      have hrest := fun g hg => hall g (List.mem_cons_of_mem f hg)
      rw [find_feed_from]
      split
      · rename_i heq
        exact absurd heq hf
      · exact ih hrest
  · intro fs
    induction fs with
    | nil => intro f hmem _; simp at hmem
    | cons g fs ih =>
      intro f hmem h200
      rcases List.mem_cons.mp hmem with rfl | hmem2
      · rw [find_feed_from, h200]
        rfl
      · rw [find_feed_from]
        split
        · rfl
        · exact ih f hmem2 h200

/-- C6 (witness): the resolver characterisation at concrete worlds — the
short-circuiting probe, the platform-A-without-probe degraded path, and
the probing loop's success and failure cases. -/
theorem c6_witness :
    determine_rss_feed_url world_c1 "http://s1.com/p" =
      "http://s1.com/p/feeds/posts/default?alt=rss" ∧
    determine_rss_feed_url world_c6 "http://ex.com" = "http://ex.com" ∧
    find_feed_from inert_world "http://z.com" (potential_feeds "drupal") = none ∧
    (find_feed_from world_c6 "http://ex.com" (potential_feeds "unknown")).isSome = true := by
  refine ⟨?_, ?_, ?_, ?_⟩
  · exact (c6_feed_resolver world_c1 "http://s1.com/p").1
      "http://s1.com/p/feeds/posts/default?alt=rss" rfl
  · exact (c6_feed_resolver world_c6 "http://ex.com").2.2.1 rfl rfl
  · exact (c6_feed_resolver inert_world "http://z.com").2.2.2.1
      (potential_feeds "drupal") (by decide)
  · exact (c6_feed_resolver world_c6 "http://ex.com").2.2.2.2
      (potential_feeds "unknown") "/feed/" (by decide) rfl

/-- C7 (counterexample): an image whose URL has no path extension at all
(`/img`) but whose query string ends in `.png` passes the code's
full-URL `splitext` filter and a file is written for it — while the
URL's path extension is empty, far outside the allow-list. -/
theorem c7_counterexample :
    download_images world_c7 doc_c7 "IMG" "http://b/" false =
      [Eff.writeFile "IMG/img" "DATA"] ∧
    splitext_ext (urlsplit "http://x/img?f=.png").path = "" ∧
    allowed_exts.contains (str_lower "") = false ∧
    splitext_ext (urljoin "http://b/" "http://x/img?f=.png") = ".png" := by
  refine ⟨rfl, rfl, rfl, rfl⟩

/-- C7 (amended): the Image Downloader writes a file for an image exactly
when its `src` is nonempty, its byte fetch succeeds, and
`os.path.splitext` applied to the full resolved URL — query string
included, not the URL's path — yields an allow-listed extension
case-insensitively; the file lands under the sanitized basename of the
resolved URL's path, inside the supplied folder. -/
theorem c7_extension_filter (w : World) (doc : Html) (folder ru : String)
    ( inside_post_body : Bool) (p d : String) :
    Eff.writeFile p d ∈ download_images w doc folder ru inside_post_body ↔
    ∃ img ∈ images_in_scope doc inside_post_body, ∃ s,
      attr_get img "src" = some s ∧ s ≠ "" ∧
      w.imgBytes (urljoin ru s) = some d ∧
      allowed_exts.contains (str_lower (splitext_ext (urljoin ru s))) = true ∧
      p = folder ++ "/" ++ sanitize_url (urljoin ru s) := by
  unfold download_images
  rw [List.mem_flatMap]
  constructor
  · rintro ⟨img, him, hmem⟩
    exact ⟨img, him, (download_image_one_mem w folder ru img p d).mp hmem⟩
  · rintro ⟨img, him, hx⟩
    exact ⟨img, him, (download_image_one_mem w folder ru img p d).mpr hx⟩

/-- C7 (witness): the write characterisation applied at the concrete
query-string image scenario. -/
theorem c7_witness :
    Eff.writeFile "IMG/img" "DATA" ∈
      download_images world_c7 doc_c7 "IMG" "http://b/" false := by
  refine (c7_extension_filter world_c7 doc_c7 "IMG" "http://b/" false "IMG/img" "DATA").mpr
    ⟨.node "img" [("src", "http://x/img?f=.png")] [], List.mem_singleton_self _,
      "http://x/img?f=.png", rfl, by decide, rfl, rfl, rfl⟩

/-- C8 (counterexample): when the external renderer raises an exception
that is not an `OSError` — the only class the source catches — the
temporary HTML file has been written and the renderer invoked, yet no
removal effect ever happens and the exception propagates: cleanup is not
guaranteed for every renderer failure. -/
theorem c8_counterexample :
    (convert_to_pdf world_c8 (.tree doc_plain) "T" "o.pdf" none).1 =
      [Eff.writeFile "o.html" (html_template "T" (py_str (Exported.tree doc_plain))),
       Eff.render "o.html" "o.pdf"] ∧
    (convert_to_pdf world_c8 (.tree doc_plain) "T" "o.pdf" none).1.any is_remove_eff =
      false ∧
    (convert_to_pdf world_c8 (.tree doc_plain) "T" "o.pdf" none).2 = true := by
  refine ⟨rfl, rfl, rfl⟩

/-- C8 (amended): whenever the temporary HTML file is actually produced
(i.e. the exporter does not fall over beforehand on the empty-string
content with an images folder) and the renderer either succeeds or raises
an `OSError`, the last effect of the PDF exporter is the removal of the
temporary file, and no exception propagates; a renderer exception of any
other class skips the cleanup, as the counterexample shows. -/
theorem c8_cleanup (w : World) (pc : Exported) (t out : String)
    (imf : Option String)
    (hok : imf = none ∨ ∃ hh, pc = Exported.tree hh)
    (hr : w.render (py_replace out ".pdf" ".html") out ≠ .otherExn) :
    (convert_to_pdf w pc t out imf).1.getLast? =
      some (Eff.removeFile (py_replace out ".pdf" ".html")) ∧
    (convert_to_pdf w pc t out imf).2 = false := by
  have hcases : imf = none ∧ (pc = Exported.emptyStr ∨ ∃ hh, pc = Exported.tree hh) ∨
      (∃ f, imf = some f) ∧ ∃ hh, pc = Exported.tree hh := by
    rcases hok with rfl | ⟨hh, rfl⟩
    · refine Or.inl ⟨rfl, ?_⟩
      cases pc with
      | emptyStr => exact Or.inl rfl
      | tree hh => exact Or.inr ⟨hh, rfl⟩
    · cases imf with
      | none => exact Or.inl ⟨rfl, Or.inr ⟨hh, rfl⟩⟩
      | some f => exact Or.inr ⟨⟨f, rfl⟩, hh, rfl⟩
  rcases hcases with ⟨rfl, rfl | ⟨hh, rfl⟩⟩ | ⟨⟨f, rfl⟩, hh, rfl⟩ <;>
    cases hrr : w.render (py_replace out ".pdf" ".html") out with
  | ok => simp [convert_to_pdf, hrr]
  | osError => simp [convert_to_pdf, hrr]
  | otherExn => exact absurd hrr hr

/-- C8 (witness): the cleanup theorem at a concrete successful render. -/
theorem c8_witness :
    (convert_to_pdf inert_world (.tree doc_plain) "T" "w.pdf" none).1.getLast? =
      some (Eff.removeFile (py_replace "w.pdf" ".pdf" ".html")) ∧
    (convert_to_pdf inert_world (.tree doc_plain) "T" "w.pdf" none).2 = false := by
  exact c8_cleanup inert_world (.tree doc_plain) "T" "w.pdf" none (Or.inl rfl)
    (fun h => nomatch h)

/-- C9 (confirmed): the TXT and Markdown exporters are the same function —
they serialise the same content to the given path identically, catching
the same `OSError` — and within `process_post`'s mode dispatch the two
modes write the very same serialised string, to paths that differ only in
the `.txt` versus `.md` extension, neither letting an exception escape. -/
theorem c9_txt_md_identical :
    save_as_txt = save_as_markdown ∧
    ∀ (w : World) (pf pt : String) (content : Exported) (imf : Option String),
      ∃ s : String,
        export_step w .TXT pf pt content imf =
          ((if w.writeOk (pf ++ "/" ++ pt ++ ".txt") = true then
              [Eff.writeFile (pf ++ "/" ++ pt ++ ".txt") s]
            else []), false) ∧
        export_step w .MD pf pt content imf =
          ((if w.writeOk (pf ++ "/" ++ pt ++ ".md") = true then
              [Eff.writeFile (pf ++ "/" ++ pt ++ ".md") s]
            else []), false) :=
  ⟨rfl, fun _ _ _ content _ => ⟨py_str content, rfl, rfl⟩⟩

/-- C10 (confirmed): a post whose content fetch returns no content is a
complete no-op — no folder, no file, no record, no crash — while its
sequence number was consumed at submission time: in the concrete
two-entry run the first entry is skipped, the second entry's folder is
numbered 2, no folder numbered 1 exists, and the metadata has fewer
records than there were submissions. -/
theorem c10_skipped_fetch :
    (∀ (w : World) (entry : Entry) (c : Nat) (od : String) (m : Mode) (dl : Bool)
      (ru : String) (n : Nat), w.fetchPost entry.link = .badStatus n →
      process_post w entry c od m dl ru =
        { record := none, effects := [], crashed := false }) ∧
    (scrape_and_save_rss_posts world_c10 (fun _ => [0, 1]) 3 "u10" "o10" .TXT false
        false).subs = [(1, entry_c10a), (2, entry_c10b)] ∧
    (scrape_and_save_rss_posts world_c10 (fun _ => [0, 1]) 3 "u10" "o10" .TXT false
        false).meta.length = 1 ∧
    Eff.mkdirP "o10/s10.com/2 - Post Two" ∈
      (scrape_and_save_rss_posts world_c10 (fun _ => [0, 1]) 3 "u10" "o10" .TXT false
        false).effects ∧
    Eff.mkdirP "o10/s10.com/1 - Post One" ∉
      (scrape_and_save_rss_posts world_c10 (fun _ => [0, 1]) 3 "u10" "o10" .TXT false
        false).effects ∧
    (scrape_and_save_rss_posts world_c10 (fun _ => [0, 1]) 3 "u10" "o10" .TXT false
        false).meta.length <
      (scrape_and_save_rss_posts world_c10 (fun _ => [0, 1]) 3 "u10" "o10" .TXT false
        false).subs.length := by
  refine ⟨process_post_badStatus, rfl, rfl, ?_, ?_, ?_⟩ <;> decide

/-- C10 (witness): the skip equation applied at a concrete non-success
fetch. -/
theorem c10_witness :
    process_post world_c10 entry_c10a 1 "o10" .TXT false "u10" =
      { record := none, effects := [], crashed := false } := by
  exact c10_skipped_fetch.1 world_c10 entry_c10a 1 "o10" .TXT false "u10" 404 rfl
